import Mathlib

/-!
Shallow embedding of the ZIVPN account manager (`ziman.py` and the companion
one-shot script `zivpn-addpass.py`).

The configuration file is a JSON document; we model JSON values with the
inductive `JValue`.  Python `dict`s are modelled as insertion-ordered
association lists (`List (String × JValue)`): dictionary assignment replaces
the value of an existing key in place and appends a fresh key at the end,
exactly as CPython dictionaries do.

Randomness (`random.choice`, `random.shuffle`) is modelled by explicit
oracle arguments: each call to `random.choice s` consumes a natural number
`r` and returns the element of `s` at index `r % len(s)`, and
`random.shuffle` is modelled by a selection shuffle driven by a stream of
naturals, which can realize every permutation of its input.  Theorems
quantify over all oracle values, so they hold for every outcome of the
random number generator.

Interactive input (`input(...)`) is modelled by explicit parameters carrying
the operator's answer, together with a `prompted` flag in the outcome that
records whether the code solicited interactive input at all.
-/

/-- A JSON value, as produced by `json.load` in `ConfigManager.load_config`.
Objects are insertion-ordered association lists, matching Python dicts. -/
inductive JValue where
  | null
  | bool (b : Bool)
  | num (n : Int)
  | str (s : String)
  | arr (xs : List JValue)
  | obj (kvs : List (String × JValue))

/-- Python `d[k]` / `d.get(k)` on a dict modelled as an association list. -/
def lookupKey (k : String) : List (String × JValue) → Option JValue
  | [] => none
  | (k', v) :: rest => if k' = k then some v else lookupKey k rest

/-- Python `d[k] = v` on a dict: replace the value in place when the key is
present (keeping its position), otherwise append the new pair at the end. -/
def setKey : List (String × JValue) → String → JValue → List (String × JValue)
  | [], k, v => [(k, v)]
  | (k', v') :: rest, k, v =>
      if k' = k then (k, v) :: rest else (k', v') :: setKey rest k v

/-- `self.config.get("auth", \x7b\x7d).get("config", [])` from
`PasswordManager.get_passwords`: the credential list of a document, with the
code's defaulting when the `auth` section or its `config` entry is absent.
(On well-formed documents — `auth` an object, `config` an array — this is
exactly the Python getter; malformed shapes that would raise in Python also
default to `[]` here, and every theorem below constrains the document shape
when it matters.) -/
def get_passwords (cfg : JValue) : List JValue :=
  match cfg with
  | .obj kvs =>
      match lookupKey "auth" kvs with
      | some (.obj akvs) =>
          match lookupKey "config" akvs with
          | some (.arr xs) => xs
          | _ => []
      | _ => []
  | _ => []

/-- The config mutation at the heart of `PasswordManager.update_passwords`:
`if "auth" not in self.config: self.config["auth"] = \x7b\x7d` followed by
`self.config["auth"]["config"] = passwords`.  Returns `none` on the shapes
where the Python subscript assignment would raise (document not a dict, or
an `auth` entry that is not a dict). -/
def setAuthConfig (cfg : JValue) (ps : List JValue) : Option JValue :=
  match cfg with
  | .obj kvs =>
      match lookupKey "auth" kvs with
      | none => some (.obj (setKey kvs "auth" (.obj [("config", .arr ps)])))
      | some (.obj akvs) =>
          some (.obj (setKey kvs "auth" (.obj (setKey akvs "config" (.arr ps)))))
      | some _ => none
  | _ => none

/-- A document on which the manager's mutations cannot raise: a JSON object
whose `auth` entry, when present, is itself an object. -/
def validDoc (cfg : JValue) : Prop :=
  ∃ kvs, cfg = .obj kvs ∧
    (lookupKey "auth" kvs = none ∨ ∃ akvs, lookupKey "auth" kvs = some (.obj akvs))

/-- Python `j == s` where `s` is a string: Python equality between a JSON
value appearing in the credential list and a candidate string is `True`
exactly when the value is the same string (any non-string compares unequal). -/
def strEqB (j : JValue) (s : String) : Bool :=
  match j with
  | .str t => t == s
  | _ => false

/-- Python `s in passwords`: case-sensitive exact string membership. -/
def memberStr (xs : List JValue) (s : String) : Bool :=
  xs.any (strEqB · s)

/-- Number of occurrences of the string `s` in a credential list. -/
def countStr (xs : List JValue) (s : String) : Nat :=
  xs.countP (strEqB · s)

/-- State of the configuration file on disk, as seen by
`ConfigManager.load_config`. -/
inductive FileState where
  | missing
  | malformed
  | denied
  | ok (doc : JValue)

/-- Failure modes of `ConfigManager.load_config` (each one prints a message
and calls `sys.exit(1)` in the source, aborting the whole operation). -/
inductive LoadError where
  | notFound
  | parseError
  | accessDenied

/-- `ConfigManager.load_config`: parse the file, aborting on a missing file,
malformed JSON, or a permission failure. -/
def load_config : FileState → Except LoadError JValue
  | .missing => .error .notFound
  | .malformed => .error .parseError
  | .denied => .error .accessDenied
  | .ok doc => .ok doc

/-- `ConfigManager.save_config`: serialize the whole in-memory document and
overwrite the file with it.  JSON serialization of the full document is
modelled as faithful, so the new file state holds exactly the saved
document. -/
def save_config (doc : JValue) : FileState :=
  .ok doc

/-- `PasswordManager.__init__`: the manager loads the document once at
construction time and keeps it as `self.config` for all later operations. -/
def passwordManagerInit (fs : FileState) : Except LoadError JValue :=
  load_config fs

/-- `PasswordManager.update_passwords`: write the credential list into the
cached document, save it, then query the service supervisor and restart only
if the service reports active at that (post-save) check.  `active` is the
value `systemctl is-active` reports when `get_service_status` runs, i.e.
just after the write; the returned Bool records whether a restart was
issued.  `none` models the `TypeError` the Python subscript assignment
raises on a document whose `auth` entry is not a dict. -/
def update_passwords (cfg : JValue) (ps : List JValue) (active : Bool) :
    Option (JValue × Bool) :=
  (setAuthConfig cfg ps).map fun cfg' => (cfg', active)

/-- Result of `PasswordManager.add_password`. -/
inductive AddResult where
  | emptyRejected
  | weakCancelled
  | duplicateRejected
  | added
  | typeError

/-- Outcome of one `add_password` call: its result, the manager's cached
document afterwards (`self.config`), the document written to disk (if any
write happened), whether a service restart was issued, and whether the code
solicited interactive input (the `input("Continue anyway? (y/N)")` prompt). -/
structure AddOutcome where
  result : AddResult
  cached : JValue
  saved : Option JValue
  restarted : Bool
  prompted : Bool

/-- `PasswordManager.add_password`: reject empty candidates; for candidates
shorter than 8 characters, interactively prompt `Continue anyway? (y/N)` —
`confirmWeak` carries the operator's answer (`True` iff it was `y`) — and
cancel unless confirmed; reject case-sensitive exact duplicates against the
cached list; otherwise append and run `update_passwords`.  `active` is the
service-active answer `update_passwords` obtains after saving. -/
def add_password (cfg : JValue) (password : String) (confirmWeak : Bool)
    (active : Bool) : AddOutcome :=
  if password = "" then
    ⟨.emptyRejected, cfg, none, false, false⟩
  else if password.length < 8 ∧ confirmWeak = false then
    ⟨.weakCancelled, cfg, none, false, true⟩
  else
    let prompted := decide (password.length < 8)
    let ps := get_passwords cfg
    if memberStr ps password then
      ⟨.duplicateRejected, cfg, none, false, prompted⟩
    else
      match update_passwords cfg (ps ++ [.str password]) active with
      | some (cfg', restarted) => ⟨.added, cfg', some cfg', restarted, prompted⟩
      | none => ⟨.typeError, cfg, none, false, prompted⟩

/-- Result of `PasswordManager.remove_password`. -/
inductive RemoveResult where
  | noPasswords
  | invalidIndex
  | removed (p : JValue)
  | typeError

/-- Outcome of one `remove_password` call. -/
structure RemoveOutcome where
  result : RemoveResult
  cached : JValue
  saved : Option JValue
  restarted : Bool

/-- `PasswordManager.remove_password`: read the cached credential list,
reject an empty list, validate the operator's 1-based index against that
list (`idx < 1 or idx > len(passwords)`), then `passwords.pop(idx - 1)` —
removal strictly by position in the cached list — and run
`update_passwords`.  The document is never re-loaded from disk, the entry is
not re-matched by value, and there is no stale-selection failure mode. -/
def remove_password (cfg : JValue) (idx : Int) (active : Bool) : RemoveOutcome :=
  let ps := get_passwords cfg
  if ps.isEmpty then
    ⟨.noPasswords, cfg, none, false⟩
  else if idx < 1 ∨ (ps.length : Int) < idx then
    ⟨.invalidIndex, cfg, none, false⟩
  else
    let k := (idx - 1).toNat
    let removedPw := ps.getD k (.str "")
    match update_passwords cfg (ps.eraseIdx k) active with
    | some (cfg', restarted) => ⟨.removed removedPw, cfg', some cfg', restarted⟩
    | none => ⟨.typeError, cfg, none, false⟩

namespace Addpass

/-- `data["auth"]["config"] = password_list` from `zivpn-addpass.py`: unlike
the manager's `update_passwords`, this raises `KeyError` (modelled as
`none`) when the `auth` section is absent, because the script subscripts
`data["auth"]` without creating it. -/
def set_auth_config (data : JValue) (ps : List JValue) : Option JValue :=
  match data with
  | .obj kvs =>
      match lookupKey "auth" kvs with
      | some (.obj akvs) =>
          some (.obj (setKey kvs "auth" (.obj (setKey akvs "config" (.arr ps)))))
      | _ => none
  | _ => none

/-- `add_password` from `zivpn-addpass.py`: load the document, reject exact
duplicates (no save, no restart), otherwise append, save, and run
`systemctl restart zivpn` unconditionally.  `active` models the ambient
service state; the script never consults it — the returned Bool (restart
issued) ignores it. -/
def add_password (active : Bool) (data : JValue) (newPass : String) :
    Option (JValue × Bool) :=
  let ps := get_passwords data
  if memberStr ps newPass then
    some (data, false)
  else
    (set_auth_config data (ps ++ [.str newPass])).map fun d => (d, true)

end Addpass

/-- Result of the §4.3 `remove(index, snapshot)` operation as the spec
words it. -/
inductive SpecRemoveResult where
  | outOfRange
  | staleSelection
  | removed (v : String)

/-- Modelled from the spec (for comparison with the code's
`remove_password`, which has no such behavior): `remove(index, snapshot)`
validates the 1-based index against the caller-held snapshot, re-loads the
document fresh, removes the selected credential by value from the freshly
loaded list, and fails with `StaleSelection` — leaving the on-disk list
unchanged — when that value is no longer present.  Returns the result
together with the resulting on-disk list. -/
def remove_spec (snapshot : List String) (idx : Int) (freshDisk : List String) :
    SpecRemoveResult × List String :=
  if idx < 1 ∨ (snapshot.length : Int) < idx then
    (.outOfRange, freshDisk)
  else
    let v := snapshot.getD (idx - 1).toNat ""
    if freshDisk.contains v then
      (.removed v, freshDisk.erase v)
    else
      (.staleSelection, freshDisk)

/-- `string.ascii_lowercase`. -/
def lowerChars : List Char := "abcdefghijklmnopqrstuvwxyz".toList

/-- `string.ascii_uppercase`. -/
def upperChars : List Char := "ABCDEFGHIJKLMNOPQRSTUVWXYZ".toList

/-- `string.digits`. -/
def digitChars : List Char := "0123456789".toList

/-- The fixed punctuation set of `generate_password`. -/
def specialChars : List Char := "!@#$%^&*".toList

/-- `''.join(chars.values())`: the union pool the remaining characters are
drawn from, in dict insertion order. -/
def allChars : List Char := lowerChars ++ upperChars ++ digitChars ++ specialChars

/-- `random.choice(s)` driven by an oracle value `r`: the element of `s` at
index `r % len(s)`.  Every element of `s` is reachable for a suitable `r`. -/
def randChoice (s : List Char) (r : Nat) : Char :=
  s.getD (r % s.length) 'a'

/-- `random.shuffle` modelled as a selection shuffle driven by a stream of
oracle values: each step extracts the element at index `r % len(xs)` of the
remaining list.  For suitable streams this realizes every permutation of the
input, and (proved below) its output is always a permutation of the input. -/
def shuffle : List Char → List Nat → List Char
  | xs, [] => xs
  | xs, r :: rs =>
      if xs.isEmpty then []
      else
        let k := r % xs.length
        xs.getD k 'a' :: shuffle (xs.eraseIdx k) rs

/-- `PasswordManager.generate_password`: pick one mandatory character from
each of the four categories, fill with `length - 4` characters drawn from
the union pool, and shuffle the result.  `length` is an arbitrary Python
int; `range(length - 4)` is empty for `length ≤ 4`.  `f` supplies the
oracle values for the fill draws, `g` those for the shuffle, and `r1..r4`
those for the four mandatory draws. -/
def generate_password (length : Int) (f g : Nat → Nat)
    (r1 r2 r3 r4 : Nat) : List Char :=
  let password : List Char :=
    [randChoice lowerChars r1, randChoice upperChars r2,
     randChoice digitChars r3, randChoice specialChars r4]
    ++ (List.range (length - 4).toNat).map fun i => randChoice allChars (f i)
  shuffle password ((List.range password.length).map g)

/-- The pre-shuffle pool of `generate_password`. -/
def generatePool (length : Int) (f : Nat → Nat) (r1 r2 r3 r4 : Nat) : List Char :=
  [randChoice lowerChars r1, randChoice upperChars r2,
   randChoice digitChars r3, randChoice specialChars r4]
  ++ (List.range (length - 4).toNat).map fun i => randChoice allChars (f i)

/-- The length clamp in the generated-password menu branch of `main`:
`if length < 8: length = 8 elif length > 32: length = 32`
(each branch also reporting the adjustment). -/
def clamp_length (length : Int) : Int :=
  if length < 8 then 8 else if length > 32 then 32 else length

/-- Point-in-time service snapshot built by
`ServiceManager.get_service_status`. -/
structure ServiceStatus where
  active : Bool
  enabled : Bool
  pid : Option Nat

/-- Result of `NetworkManager.get_network_info`. -/
structure NetworkInfo where
  hostname : String
  ip_address : String

/-- The external environment a dashboard snapshot observes: the config file,
the service supervisor (whether its queries succeed and what they report),
and the host network inspection (whether it succeeds and what it reports). -/
structure World where
  file : FileState
  svcQueryOk : Bool
  svcActive : Bool
  svcEnabled : Bool
  svcPid : Option Nat
  netOk : Bool
  netIp : String
  netHost : String

/-- `ServiceManager.get_service_status`: queries wrapped in a `try/except`
that leaves the defaults (`active = False`, `enabled = False`, `pid = None`)
in place when the supervisor commands fail; the PID is resolved only when
the service is active. -/
def get_service_status (w : World) : ServiceStatus :=
  if w.svcQueryOk then
    ⟨w.svcActive, w.svcEnabled, if w.svcActive then w.svcPid else none⟩
  else
    ⟨false, false, none⟩

/-- `NetworkManager.get_network_info`: the primary-IP probe is wrapped in a
`try/except` that leaves the explicit `"Unable to determine"` marker in
place when the network inspection fails. -/
def get_network_info (w : World) : NetworkInfo :=
  ⟨w.netHost, if w.netOk then w.netIp else "Unable to determine"⟩

/-- `list(config.keys())` from `ConfigManager.get_config_info`. -/
def topLevelKeys (doc : JValue) : List String :=
  match doc with
  | .obj kvs => kvs.map Prod.fst
  | _ => []

/-- The combined snapshot `CLIInterface.display_dashboard` renders. -/
structure Dashboard where
  status : ServiceStatus
  passwordCount : Nat
  configKeys : List String
  network : NetworkInfo

/-- `CLIInterface.display_dashboard`: query the service status (failure
tolerated), construct a `PasswordManager` (which calls `load_config` —
aborting the whole dashboard on failure), count the credentials, call
`ConfigManager.get_config_info` (another `load_config`), and collect the
network information (failure tolerated). -/
def display_dashboard (w : World) : Except LoadError Dashboard := do
  let status := get_service_status w
  let cfg ← load_config w.file
  let pwCount := (get_passwords cfg).length
  let info ← load_config w.file
  let net := get_network_info w
  return ⟨status, pwCount, topLevelKeys info, net⟩

/-- Fixture: a document whose credential list is `["a", "b"]`, with a
`server` section and an `auth.method` entry alongside. -/
def docAB : JValue :=
  .obj [("server", .obj [("port", .num 5667)]),
        ("auth", .obj [("method", .str "passwords"),
                       ("config", .arr [.str "a", .str "b"])])]

/-- Fixture: a document whose credential list is `["a"]`. -/
def docA : JValue := .obj [("auth", .obj [("config", .arr [.str "a"])])]

/-- Fixture: a document whose credential list is `["b"]`. -/
def docB : JValue := .obj [("auth", .obj [("config", .arr [.str "b"])])]

/-- Fixture: a document whose credential list contains the same entry
twice. -/
def docDup : JValue :=
  .obj [("auth", .obj [("config", .arr [.str "password1", .str "password1"])])]

/-- Fixture: a document with an empty credential list. -/
def docEmpty : JValue := .obj [("auth", .obj [("config", .arr [])])]

/-- Fixture: `auth` section entries with an unrecognized `extra` key. -/
def docRichAuthKvs : List (String × JValue) :=
  [("method", .str "passwords"), ("config", .arr [.str "a"]), ("extra", .bool true)]

/-- Fixture: top-level entries with an unrecognized `unknown` key. -/
def docRichKvs : List (String × JValue) :=
  [("server", .obj [("port", .num 5667), ("protocol", .str "udp")]),
   ("auth", .obj docRichAuthKvs),
   ("unknown", .num 7)]

/-- Fixture: a document carrying unrecognized top-level and nested keys. -/
def docRich : JValue := .obj docRichKvs

/-- Fixture: a world whose config file is missing while every other
sub-query (service status, network) would succeed. -/
def worldMissing : World :=
  ⟨.missing, true, true, true, some 42, false, "203.0.113.5", "vps"⟩

/-- Fixture: a world with a loadable config whose network inspection
fails. -/
def worldNetDown : World :=
  ⟨.ok docA, true, true, true, some 42, false, "203.0.113.5", "vps"⟩

theorem lookupKey_setKey_self (kvs : List (String × JValue)) (k : String) (v : JValue) :
    lookupKey k (setKey kvs k v) = some v := by
  induction kvs with
  | nil => simp [setKey, lookupKey]
  | cons hd tl ih =>
      obtain ⟨k', v'⟩ := hd
      by_cases h : k' = k
      · simp [setKey, lookupKey, h]
      · simp [setKey, lookupKey, h, ih]

theorem lookupKey_setKey_ne (kvs : List (String × JValue)) (k k' : String) (v : JValue)
    (h : k' ≠ k) : lookupKey k' (setKey kvs k v) = lookupKey k' kvs := by
  induction kvs with
  | nil => simp [setKey, lookupKey, Ne.symm h]
  | cons hd tl ih =>
      obtain ⟨k₀, v₀⟩ := hd
      by_cases h0 : k₀ = k
      · subst h0
        simp [setKey, lookupKey, Ne.symm h]
      · by_cases h1 : k₀ = k'
        · simp [setKey, lookupKey, h0, h1, h]
        · simp [setKey, lookupKey, h0, h1, ih]

theorem get_passwords_setAuthConfig (cfg : JValue) (ps : List JValue) (cfg' : JValue)
    (h : setAuthConfig cfg ps = some cfg') : get_passwords cfg' = ps := by
  match cfg with
  | .null | .bool _ | .num _ | .str _ | .arr _ => simp [setAuthConfig] at h
  | .obj kvs =>
      match hak : lookupKey "auth" kvs with
      | none =>
          simp [setAuthConfig, hak] at h
          subst h
          simp [get_passwords, lookupKey_setKey_self, lookupKey]
      | some (.obj akvs) =>
          simp [setAuthConfig, hak] at h
          subst h
          simp [get_passwords, lookupKey_setKey_self]
      | some .null | some (.bool _) | some (.num _) | some (.str _) | some (.arr _) =>
          simp [setAuthConfig, hak] at h

theorem setAuthConfig_isSome (cfg : JValue) (ps : List JValue) (h : validDoc cfg) :
    ∃ cfg', setAuthConfig cfg ps = some cfg' := by
  obtain ⟨kvs, rfl, hak⟩ := h
  rcases hak with hak | ⟨akvs, hak⟩
  · refine ⟨JValue.obj (setKey kvs "auth" (.obj [("config", .arr ps)])), ?_⟩
    simp [setAuthConfig, hak]
  · refine ⟨JValue.obj (setKey kvs "auth" (.obj (setKey akvs "config" (.arr ps)))), ?_⟩
    simp [setAuthConfig, hak]

theorem validDoc_setAuthConfig (cfg : JValue) (ps : List JValue) (cfg' : JValue)
    (h : setAuthConfig cfg ps = some cfg') : validDoc cfg' := by
  match cfg with
  | .null | .bool _ | .num _ | .str _ | .arr _ => simp [setAuthConfig] at h
  | .obj kvs =>
      match hak : lookupKey "auth" kvs with
      | none =>
          simp [setAuthConfig, hak] at h
          exact ⟨_, h.symm, .inr ⟨_, lookupKey_setKey_self ..⟩⟩
      | some (.obj akvs) =>
          simp [setAuthConfig, hak] at h
          exact ⟨_, h.symm, .inr ⟨_, lookupKey_setKey_self ..⟩⟩
      | some .null | some (.bool _) | some (.num _) | some (.str _) | some (.arr _) =>
          simp [setAuthConfig, hak] at h

theorem getD_cons_eraseIdx_perm (xs : List Char) (k : Nat) (h : k < xs.length)
    (d : Char) : (xs.getD k d :: xs.eraseIdx k).Perm xs := by
  induction xs generalizing k with
  | nil => simp at h
  | cons a t ih =>
      cases k with
      | zero => simp [List.eraseIdx]
      | succ k' =>
          have h' : k' < t.length := by simpa using h
          have step : (t.getD k' d :: a :: t.eraseIdx k').Perm (a :: (t.getD k' d :: t.eraseIdx k')) :=
            List.Perm.swap a (t.getD k' d) (t.eraseIdx k')
          have tail : (a :: (t.getD k' d :: t.eraseIdx k')).Perm (a :: t) :=
            (ih k' h').cons a
          simpa [List.eraseIdx] using step.trans tail

theorem shuffle_perm (rs : List Nat) (xs : List Char) : (shuffle xs rs).Perm xs := by
  induction rs generalizing xs with
  | nil => simp [shuffle]
  | cons r rs ih =>
      by_cases hxs : xs.isEmpty
      · have : xs = [] := List.isEmpty_iff.mp hxs
        subst this
        simp [shuffle]
      · have hlen : 0 < xs.length := by
          cases xs with
          | nil => simp at hxs
          | cons a t => simp
        have hk : r % xs.length < xs.length := Nat.mod_lt _ hlen
        have hrec := (ih (xs.eraseIdx (r % xs.length))).cons (xs.getD (r % xs.length) 'a')
        have heq : shuffle xs (r :: rs)
            = xs.getD (r % xs.length) 'a' :: shuffle (xs.eraseIdx (r % xs.length)) rs := by
          simp [shuffle, hxs]
        rw [heq]
        exact hrec.trans (getD_cons_eraseIdx_perm xs (r % xs.length) hk 'a')

theorem randChoice_mem (s : List Char) (r : Nat) (h : s ≠ []) : randChoice s r ∈ s := by
  have hlen : 0 < s.length := List.length_pos.mpr h
  have hk : r % s.length < s.length := Nat.mod_lt _ hlen
  rw [randChoice, List.getD_eq_getElem s 'a' hk]
  exact List.getElem_mem hk

theorem generate_password_perm (length : Int) (f g : Nat → Nat) (r1 r2 r3 r4 : Nat) :
    (generate_password length f g r1 r2 r3 r4).Perm (generatePool length f r1 r2 r3 r4) :=
  shuffle_perm _ _

theorem generatePool_length (length : Int) (f : Nat → Nat) (r1 r2 r3 r4 : Nat) :
    (generatePool length f r1 r2 r3 r4).length = 4 + (length - 4).toNat := by
  simp [generatePool]
  omega

theorem generate_password_length (length : Int) (f g : Nat → Nat) (r1 r2 r3 r4 : Nat)
    (h : 4 ≤ length) :
    ((generate_password length f g r1 r2 r3 r4).length : Int) = length := by
  have hperm := generate_password_perm length f g r1 r2 r3 r4
  rw [hperm.length_eq, generatePool_length]
  have h4 : (0 : Int) ≤ length - 4 := by omega
  have : ((length - 4).toNat : Int) = length - 4 := Int.toNat_of_nonneg h4
  push_cast [this]
  omega

theorem lowerChars_ne_nil : lowerChars ≠ [] := by decide

theorem upperChars_ne_nil : upperChars ≠ [] := by decide

theorem digitChars_ne_nil : digitChars ≠ [] := by decide

theorem specialChars_ne_nil : specialChars ≠ [] := by decide

theorem upper_not_lower : ∀ c ∈ upperChars, c ∉ lowerChars := by decide

theorem digit_not_lower : ∀ c ∈ digitChars, c ∉ lowerChars := by decide

theorem special_not_lower : ∀ c ∈ specialChars, c ∉ lowerChars := by decide

theorem lower_not_upper : ∀ c ∈ lowerChars, c ∉ upperChars := by decide

theorem digit_not_upper : ∀ c ∈ digitChars, c ∉ upperChars := by decide

theorem special_not_upper : ∀ c ∈ specialChars, c ∉ upperChars := by decide

theorem lower_not_digit : ∀ c ∈ lowerChars, c ∉ digitChars := by decide

theorem upper_not_digit : ∀ c ∈ upperChars, c ∉ digitChars := by decide

theorem special_not_digit : ∀ c ∈ specialChars, c ∉ digitChars := by decide

theorem lower_not_special : ∀ c ∈ lowerChars, c ∉ specialChars := by decide

theorem upper_not_special : ∀ c ∈ upperChars, c ∉ specialChars := by decide

theorem digit_not_special : ∀ c ∈ digitChars, c ∉ specialChars := by decide

theorem mem_generate_password_of_mem_pool (length : Int) (f g : Nat → Nat)
    (r1 r2 r3 r4 : Nat) (c : Char) (h : c ∈ generatePool length f r1 r2 r3 r4) :
    c ∈ generate_password length f g r1 r2 r3 r4 :=
  (generate_password_perm length f g r1 r2 r3 r4).mem_iff.mpr h

theorem generatePool_eq_of_le_four (length : Int) (f : Nat → Nat) (r1 r2 r3 r4 : Nat)
    (h : length ≤ 4) :
    generatePool length f r1 r2 r3 r4
      = [randChoice lowerChars r1, randChoice upperChars r2,
         randChoice digitChars r3, randChoice specialChars r4] := by
  have h0 : (length - 4).toNat = 0 := by omega
  simp [generatePool, h0]

/-- C5: for every length in [8, 32] and every outcome of the randomness
oracles, `generate_password` returns exactly `length` characters, containing
at least one lowercase letter, at least one uppercase letter, at least one
digit, and at least one character from the fixed punctuation set; the result
is a permutation (chosen by the shuffle oracle) of the pre-shuffle pool, so
no position is reserved for any category. -/
theorem c5_generate_in_range (length : Int) (f g : Nat → Nat) (r1 r2 r3 r4 : Nat)
    (h8 : 8 ≤ length) (h32 : length ≤ 32) :
    ((generate_password length f g r1 r2 r3 r4).length : Int) = length
    ∧ (∃ c ∈ generate_password length f g r1 r2 r3 r4, c ∈ lowerChars)
    ∧ (∃ c ∈ generate_password length f g r1 r2 r3 r4, c ∈ upperChars)
    ∧ (∃ c ∈ generate_password length f g r1 r2 r3 r4, c ∈ digitChars)
    ∧ (∃ c ∈ generate_password length f g r1 r2 r3 r4, c ∈ specialChars)
    ∧ (generate_password length f g r1 r2 r3 r4).Perm (generatePool length f r1 r2 r3 r4) := by
  refine ⟨generate_password_length length f g r1 r2 r3 r4 (by omega),
    ⟨randChoice lowerChars r1,
      mem_generate_password_of_mem_pool length f g r1 r2 r3 r4 _ (by simp [generatePool]),
      randChoice_mem _ _ lowerChars_ne_nil⟩,
    ⟨randChoice upperChars r2,
      mem_generate_password_of_mem_pool length f g r1 r2 r3 r4 _ (by simp [generatePool]),
      randChoice_mem _ _ upperChars_ne_nil⟩,
    ⟨randChoice digitChars r3,
      mem_generate_password_of_mem_pool length f g r1 r2 r3 r4 _ (by simp [generatePool]),
      randChoice_mem _ _ digitChars_ne_nil⟩,
    ⟨randChoice specialChars r4,
      mem_generate_password_of_mem_pool length f g r1 r2 r3 r4 _ (by simp [generatePool]),
      randChoice_mem _ _ specialChars_ne_nil⟩,
    generate_password_perm length f g r1 r2 r3 r4⟩

/-- Witness for C5 at `length = 8` with concrete oracle values. -/
theorem c5_generate_in_range_witness :
    (8 : Int) ≤ 8 ∧ (8 : Int) ≤ 32
    ∧ (((generate_password 8 (fun _ => 0) (fun _ => 0) 0 0 0 0).length : Int) = 8
      ∧ (∃ c ∈ generate_password 8 (fun _ => 0) (fun _ => 0) 0 0 0 0, c ∈ lowerChars)
      ∧ (∃ c ∈ generate_password 8 (fun _ => 0) (fun _ => 0) 0 0 0 0, c ∈ upperChars)
      ∧ (∃ c ∈ generate_password 8 (fun _ => 0) (fun _ => 0) 0 0 0 0, c ∈ digitChars)
      ∧ (∃ c ∈ generate_password 8 (fun _ => 0) (fun _ => 0) 0 0 0 0, c ∈ specialChars)
      ∧ (generate_password 8 (fun _ => 0) (fun _ => 0) 0 0 0 0).Perm
          (generatePool 8 (fun _ => 0) 0 0 0 0)) :=
  ⟨by norm_num, by norm_num,
    c5_generate_in_range 8 (fun _ => 0) (fun _ => 0) 0 0 0 0 (by norm_num) (by norm_num)⟩

/-- C10: for every integer length at most 4 (including 0 and negative
values) and every oracle outcome, `generate_password` returns exactly 4
characters: exactly one lowercase letter, one uppercase letter, one digit,
and one punctuation character (`range(length - 4)` is empty, so only the
four mandatory draws remain). -/
theorem c10_generate_short (length : Int) (h : length ≤ 4) (f g : Nat → Nat)
    (r1 r2 r3 r4 : Nat) :
    (generate_password length f g r1 r2 r3 r4).length = 4
    ∧ (generate_password length f g r1 r2 r3 r4).countP (fun c => decide (c ∈ lowerChars)) = 1
    ∧ (generate_password length f g r1 r2 r3 r4).countP (fun c => decide (c ∈ upperChars)) = 1
    ∧ (generate_password length f g r1 r2 r3 r4).countP (fun c => decide (c ∈ digitChars)) = 1
    ∧ (generate_password length f g r1 r2 r3 r4).countP (fun c => decide (c ∈ specialChars)) = 1 := by
  have hperm := generate_password_perm length f g r1 r2 r3 r4
  have hpool := generatePool_eq_of_le_four length f r1 r2 r3 r4 h
  have hc1 := randChoice_mem lowerChars r1 lowerChars_ne_nil
  have hc2 := randChoice_mem upperChars r2 upperChars_ne_nil
  have hc3 := randChoice_mem digitChars r3 digitChars_ne_nil
  have hc4 := randChoice_mem specialChars r4 specialChars_ne_nil
  refine ⟨?_, ?_, ?_, ?_, ?_⟩
  · rw [hperm.length_eq, hpool]
    rfl
  · rw [hperm.countP_eq, hpool]
    simp [List.countP_cons, hc1, upper_not_lower _ hc2, digit_not_lower _ hc3,
      special_not_lower _ hc4]
  · rw [hperm.countP_eq, hpool]
    simp [List.countP_cons, hc2, lower_not_upper _ hc1, digit_not_upper _ hc3,
      special_not_upper _ hc4]
  · rw [hperm.countP_eq, hpool]
    simp [List.countP_cons, hc3, lower_not_digit _ hc1, upper_not_digit _ hc2,
      special_not_digit _ hc4]
  · rw [hperm.countP_eq, hpool]
    simp [List.countP_cons, hc4, lower_not_special _ hc1, upper_not_special _ hc2,
      digit_not_special _ hc3]

/-- Witness for C10 at `length = 0` with concrete oracle values. -/
theorem c10_generate_short_witness :
    (0 : Int) ≤ 4
    ∧ ((generate_password 0 (fun _ => 0) (fun _ => 0) 0 0 0 0).length = 4
      ∧ (generate_password 0 (fun _ => 0) (fun _ => 0) 0 0 0 0).countP
          (fun c => decide (c ∈ lowerChars)) = 1
      ∧ (generate_password 0 (fun _ => 0) (fun _ => 0) 0 0 0 0).countP
          (fun c => decide (c ∈ upperChars)) = 1
      ∧ (generate_password 0 (fun _ => 0) (fun _ => 0) 0 0 0 0).countP
          (fun c => decide (c ∈ digitChars)) = 1
      ∧ (generate_password 0 (fun _ => 0) (fun _ => 0) 0 0 0 0).countP
          (fun c => decide (c ∈ specialChars)) = 1) :=
  ⟨by norm_num, c10_generate_short 0 (by norm_num) (fun _ => 0) (fun _ => 0) 0 0 0 0⟩

/-- C8: for every integer length outside [8, 32], the generated-password
menu branch of `main` clamps the length into [8, 32] (reporting an
adjustment: the clamped value differs from the request), and the credential
produced with the clamped length has exactly the clamped length; nothing
fails. -/
theorem c8_menu_clamp (length : Int) (h : length < 8 ∨ 32 < length) (f g : Nat → Nat)
    (r1 r2 r3 r4 : Nat) :
    8 ≤ clamp_length length ∧ clamp_length length ≤ 32 ∧ clamp_length length ≠ length
    ∧ ((generate_password (clamp_length length) f g r1 r2 r3 r4).length : Int)
        = clamp_length length := by
  have hcl : 8 ≤ clamp_length length ∧ clamp_length length ≤ 32
      ∧ clamp_length length ≠ length := by
    simp only [clamp_length]
    split
    · omega
    · split
      · omega
      · omega
  obtain ⟨a, b, c⟩ := hcl
  exact ⟨a, b, c, generate_password_length _ f g r1 r2 r3 r4 (by omega)⟩

/-- Witness for C8 at `length = 50` with concrete oracle values. -/
theorem c8_menu_clamp_witness :
    ((50 : Int) < 8 ∨ (32 : Int) < 50)
    ∧ (8 ≤ clamp_length 50 ∧ clamp_length 50 ≤ 32 ∧ clamp_length 50 ≠ 50
      ∧ ((generate_password (clamp_length 50) (fun _ => 0) (fun _ => 0) 0 0 0 0).length : Int)
          = clamp_length 50) :=
  ⟨by norm_num, c8_menu_clamp 50 (by norm_num) (fun _ => 0) (fun _ => 0) 0 0 0 0⟩

theorem strEqB_eq_true (j : JValue) (s : String) : strEqB j s = true ↔ j = .str s := by
  cases j <;> simp [strEqB]

theorem memberStr_iff_mem (xs : List JValue) (s : String) :
    memberStr xs s = true ↔ JValue.str s ∈ xs := by
  simp only [memberStr, List.any_eq_true, strEqB_eq_true]
  constructor
  · rintro ⟨j, hj, rfl⟩
    exact hj
  · intro hj
    exact ⟨_, hj, rfl⟩

theorem memberStr_iff_countStr_pos (xs : List JValue) (s : String) :
    memberStr xs s = true ↔ 0 < countStr xs s := by
  simp [memberStr, countStr, List.any_eq_true, List.countP_pos_iff]

theorem memberStr_eq_false_iff (xs : List JValue) (s : String) :
    memberStr xs s = false ↔ countStr xs s = 0 := by
  rw [← Bool.not_eq_true, memberStr_iff_countStr_pos]
  omega

theorem countStr_append (xs ys : List JValue) (s : String) :
    countStr (xs ++ ys) s = countStr xs s + countStr ys s := by
  simp [countStr, List.countP_append]

theorem countStr_singleton_self (s : String) : countStr [JValue.str s] s = 1 := by
  simp [countStr, List.countP_cons, strEqB]

theorem memberStr_append_self (xs : List JValue) (s : String) :
    memberStr (xs ++ [JValue.str s]) s = true := by
  rw [memberStr_iff_mem]
  simp

theorem add_password_accepted (cfg : JValue) (password : String) (confirmWeak active : Bool)
    (hv : validDoc cfg) (hne : password ≠ "")
    (hweak : ¬(password.length < 8 ∧ confirmWeak = false))
    (hdup : memberStr (get_passwords cfg) password = false) :
    ∃ d, add_password cfg password confirmWeak active
        = ⟨.added, d, some d, active, decide (password.length < 8)⟩
      ∧ get_passwords d = get_passwords cfg ++ [.str password]
      ∧ validDoc d := by
  obtain ⟨d, hset⟩ := setAuthConfig_isSome cfg (get_passwords cfg ++ [.str password]) hv
  refine ⟨d, ?_, get_passwords_setAuthConfig _ _ _ hset, validDoc_setAuthConfig _ _ _ hset⟩
  simp [add_password, hne, hweak, hdup, update_passwords, hset]

theorem add_password_duplicate (cfg : JValue) (password : String) (confirmWeak active : Bool)
    (hne : password ≠ "")
    (hweak : ¬(password.length < 8 ∧ confirmWeak = false))
    (hdup : memberStr (get_passwords cfg) password = true) :
    add_password cfg password confirmWeak active
      = ⟨.duplicateRejected, cfg, none, false, decide (password.length < 8)⟩ := by
  simp [add_password, hne, hweak, hdup]

theorem add_password_weak_cancelled (cfg : JValue) (password : String) (active : Bool)
    (hne : password ≠ "") (hlen : password.length < 8) :
    add_password cfg password false active = ⟨.weakCancelled, cfg, none, false, true⟩ := by
  simp [add_password, hne, hlen]

theorem remove_password_in_range (cfg : JValue) (idx : Int) (active : Bool)
    (hv : validDoc cfg) (h1 : 1 ≤ idx)
    (h2 : idx ≤ ((get_passwords cfg).length : Int)) :
    ∃ d, remove_password cfg idx active
        = ⟨.removed ((get_passwords cfg).getD (idx - 1).toNat (.str "")), d, some d, active⟩
      ∧ get_passwords d = (get_passwords cfg).eraseIdx (idx - 1).toNat := by
  obtain ⟨d, hset⟩ := setAuthConfig_isSome cfg ((get_passwords cfg).eraseIdx (idx - 1).toNat) hv
  have hne : (get_passwords cfg).isEmpty = false := by
    cases hps : get_passwords cfg with
    | nil =>
        rw [hps] at h2
        simp at h2
        omega
    | cons a t => simp
  have hcond : ¬(idx < 1 ∨ ((get_passwords cfg).length : Int) < idx) := by omega
  refine ⟨d, ?_, get_passwords_setAuthConfig _ _ _ hset⟩
  have hk : (idx - 1).toNat = idx.toNat - 1 := by omega
  rw [hk] at hset
  simp [remove_password, hne, hcond, update_passwords, hset, hk]

/-- C1 (counterexample): the claim says `remove` re-loads the document
fresh, removes the selected credential by value matched against the
snapshot, and fails with `StaleSelection` (leaving the on-disk list
unchanged) when that value is absent from the freshly loaded list.
`remove_password` does none of this: it takes no fresh disk state at all,
removes strictly by position from the manager's cached list, and writes
unconditionally.  With cached snapshot `["a", "b"]` and selection 1 it
removes `"a"` and writes, whereas the spec-side `remove_spec` facing a
drifted fresh list `["b", "c"]` (where `"a"` is gone) fails with
`StaleSelection` and leaves the list unchanged. -/
theorem c1_remove_counterexample :
    (remove_password docAB 1 true).result = .removed (.str "a")
    ∧ (remove_password docAB 1 true).saved
        = some (.obj [("server", .obj [("port", .num 5667)]),
                      ("auth", .obj [("method", .str "passwords"),
                                     ("config", .arr [.str "b"])])])
    ∧ (remove_spec ["a", "b"] 1 ["b", "c"]).1 = .staleSelection
    ∧ (remove_spec ["a", "b"] 1 ["b", "c"]).2 = ["b", "c"] :=
  ⟨rfl, rfl, rfl, rfl⟩

/-- C1 (amended): for every in-range 1-based index, `remove_password`
removes the entry at that position of the manager's cached list and always
writes the result; it never re-loads the document, never re-matches the
selection by value, and has no `StaleSelection` failure mode. -/
theorem c1_remove_positional (cfg : JValue) (idx : Int) (active : Bool)
    (hv : validDoc cfg) (h1 : 1 ≤ idx)
    (h2 : idx ≤ ((get_passwords cfg).length : Int)) :
    ∃ d, remove_password cfg idx active
        = ⟨.removed ((get_passwords cfg).getD (idx - 1).toNat (.str "")), d, some d, active⟩
      ∧ get_passwords d = (get_passwords cfg).eraseIdx (idx - 1).toNat :=
  remove_password_in_range cfg idx active hv h1 h2

/-- Witness for the amended C1 on the concrete document `docAB` at
index 1. -/
theorem c1_remove_positional_witness :
    validDoc docAB ∧ (1 : Int) ≤ 1 ∧ (1 : Int) ≤ ((get_passwords docAB).length : Int)
    ∧ ∃ d, remove_password docAB 1 true
        = ⟨.removed ((get_passwords docAB).getD ((1 : Int) - 1).toNat (.str "")), d,
           some d, true⟩
      ∧ get_passwords d = (get_passwords docAB).eraseIdx ((1 : Int) - 1).toNat :=
  ⟨⟨_, rfl, .inr ⟨_, rfl⟩⟩, by norm_num, by decide,
   c1_remove_positional docAB 1 true ⟨_, rfl, .inr ⟨_, rfl⟩⟩ (by norm_num) (by decide)⟩

/-- C2 (counterexample): the manager caches the document at construction
and never re-loads it.  Construct the manager while the file holds `docA`
(list `["a"]`), let the file be replaced externally by `docB` (list
`["b"]`), then add `"password1"`: the saved list is the mutated cached list
`["a", "password1"]`, not the freshly-read-list mutation
`["b", "password1"]` that the claim requires. -/
theorem c2_counterexample :
    (add_password docA "password1" false true).saved.map get_passwords
        = some [JValue.str "a", JValue.str "password1"]
    ∧ get_passwords docB = [JValue.str "b"]
    ∧ [JValue.str "a", JValue.str "password1"] ≠ [JValue.str "b", JValue.str "password1"] :=
  ⟨rfl, rfl, by simp⟩

/-- C2 (amended): every mutating operation (add, remove) reads and mutates
the manager's cached in-memory document (`self.config`, loaded once at
construction): the saved list is exactly the cached list with the mutation
applied, and it also becomes the new cached document. -/
theorem c2_cached_list_mutation (cfg : JValue) (password : String) (active : Bool)
    (hv : validDoc cfg) (hne : password ≠ "") (hlen : 8 ≤ password.length)
    (hdup : memberStr (get_passwords cfg) password = false) :
    (∃ d, (add_password cfg password false active).saved = some d
      ∧ (add_password cfg password false active).cached = d
      ∧ get_passwords d = get_passwords cfg ++ [.str password])
    ∧ (∀ idx : Int, 1 ≤ idx → idx ≤ ((get_passwords cfg).length : Int) →
        ∃ d, (remove_password cfg idx active).saved = some d
          ∧ get_passwords d = (get_passwords cfg).eraseIdx (idx - 1).toNat) := by
  constructor
  · obtain ⟨d, heq, hget, _⟩ :=
      add_password_accepted cfg password false active hv hne
        (fun hc => absurd hc.1 (by omega)) hdup
    exact ⟨d, by rw [heq], by rw [heq], hget⟩
  · intro idx h1 h2
    obtain ⟨d, heq, hget⟩ := remove_password_in_range cfg idx active hv h1 h2
    exact ⟨d, by rw [heq], hget⟩

/-- Witness for the amended C2 on `docA` with candidate `"password1"`. -/
theorem c2_cached_list_mutation_witness :
    validDoc docA ∧ "password1" ≠ "" ∧ 8 ≤ "password1".length
    ∧ memberStr (get_passwords docA) "password1" = false
    ∧ ((∃ d, (add_password docA "password1" false true).saved = some d
        ∧ (add_password docA "password1" false true).cached = d
        ∧ get_passwords d = get_passwords docA ++ [.str "password1"])
      ∧ (∀ idx : Int, 1 ≤ idx → idx ≤ ((get_passwords docA).length : Int) →
          ∃ d, (remove_password docA idx true).saved = some d
            ∧ get_passwords d = (get_passwords docA).eraseIdx (idx - 1).toNat)) :=
  ⟨⟨_, rfl, .inr ⟨_, rfl⟩⟩, by decide, by decide, rfl,
   c2_cached_list_mutation docA "password1" true ⟨_, rfl, .inr ⟨_, rfl⟩⟩
     (by decide) (by decide) rfl⟩

/-- C3 (counterexample): the claim says a restart is issued if and only if
the service was active immediately before the configuration write, for
every successful add.  The standalone `zivpn-addpass.py` script restarts
unconditionally: with the ambient service state inactive (`false`), a
successful add still issues the restart. -/
theorem c3_counterexample :
    (Addpass.add_password false docA "password1").map Prod.snd = some true :=
  rfl

/-- C3 (amended): in `ziman.py`, `update_passwords` (used by both add and
remove) issues a restart if and only if the service reports active when
queried just after the configuration write; the standalone
`zivpn-addpass.py` script instead restarts unconditionally after every
successful (non-duplicate) add, regardless of service state. -/
theorem c3_restart_policy :
    (∀ cfg ps active cfg' b, update_passwords cfg ps active = some (cfg', b) → b = active)
    ∧ (∀ active data newPass d b,
        memberStr (get_passwords data) newPass = false →
        Addpass.add_password active data newPass = some (d, b) → b = true) := by
  constructor
  · intro cfg ps active cfg' b h
    cases hset : setAuthConfig cfg ps with
    | none => rw [update_passwords, hset] at h; simp at h
    | some x =>
        rw [update_passwords, hset] at h
        simp at h
        exact h.2.symm
  · intro active data newPass d b hm h
    simp [Addpass.add_password, hm] at h
    cases hset : Addpass.set_auth_config data (get_passwords data ++ [.str newPass]) with
    | none => rw [hset] at h; simp at h
    | some x =>
        rw [hset] at h
        simp at h
        exact h.2

/-- Witness for the amended C3: a concrete `update_passwords` call with the
service inactive issues no restart, and a concrete successful
`zivpn-addpass` add issues one. -/
theorem c3_restart_policy_witness :
    update_passwords docA [JValue.str "x"] false
      = some (JValue.obj [("auth", JValue.obj [("config", JValue.arr [JValue.str "x"])])], false)
    ∧ memberStr (get_passwords docA) "x" = false
    ∧ Addpass.add_password true docA "x"
      = some (JValue.obj [("auth",
          JValue.obj [("config", JValue.arr [JValue.str "a", JValue.str "x"])])], true)
    ∧ false = false ∧ true = true :=
  ⟨rfl, rfl, rfl,
   c3_restart_policy.1 docA [JValue.str "x"] false _ false rfl,
   c3_restart_policy.2 true docA "x" _ true rfl rfl⟩

/-- C4 (counterexample): the claim quantifies over every starting list, but
with a starting list that already holds the credential twice both calls are
rejected as duplicates without writing, and the stored list keeps two
occurrences of the credential, not exactly one. -/
theorem c4_counterexample :
    countStr (get_passwords docDup) "password1" = 2
    ∧ (add_password docDup "password1" false true).saved = none
    ∧ (add_password docDup "password1" false true).cached = docDup
    ∧ (add_password ((add_password docDup "password1" false true).cached)
        "password1" false true).saved = none
    ∧ (add_password ((add_password docDup "password1" false true).cached)
        "password1" false true).result = .duplicateRejected :=
  ⟨rfl, rfl, rfl, rfl, rfl⟩

/-- C4 (amended): for every valid candidate (non-empty, length at least 8)
and every starting list holding the candidate at most once, running `add`
twice leaves exactly one occurrence in the stored list; the second call is
rejected as a duplicate without writing; and the duplicate comparison is
case-sensitive exact string match (membership holds exactly for the
identical string value). -/
theorem c4_add_idempotent (cfg : JValue) (password : String) (confirmWeak active : Bool)
    (hv : validDoc cfg) (hne : password ≠ "") (hlen : 8 ≤ password.length)
    (hcnt : countStr (get_passwords cfg) password ≤ 1) :
    countStr
      (get_passwords
        (((add_password ((add_password cfg password confirmWeak active).cached)
            password confirmWeak active).saved).getD
          (((add_password cfg password confirmWeak active).saved).getD cfg)))
      password = 1
    ∧ (add_password ((add_password cfg password confirmWeak active).cached)
        password confirmWeak active).result = .duplicateRejected
    ∧ (add_password ((add_password cfg password confirmWeak active).cached)
        password confirmWeak active).saved = none
    ∧ (∀ xs s, memberStr xs s = true ↔ JValue.str s ∈ xs) := by
  have hweak : ¬(password.length < 8 ∧ confirmWeak = false) :=
    fun hc => absurd hc.1 (by omega)
  by_cases hm : memberStr (get_passwords cfg) password = true
  · have h1 := add_password_duplicate cfg password confirmWeak active hne hweak hm
    have hcached : (add_password cfg password confirmWeak active).cached = cfg := by rw [h1]
    have hsaved : (add_password cfg password confirmWeak active).saved = none := by rw [h1]
    have h2 : add_password ((add_password cfg password confirmWeak active).cached)
        password confirmWeak active
        = ⟨.duplicateRejected, cfg, none, false, decide (password.length < 8)⟩ := by
      rw [hcached]
      exact h1
    refine ⟨?_, by rw [h2], by rw [h2], memberStr_iff_mem⟩
    rw [h2, hsaved]
    simp only [Option.getD_none]
    have hpos := (memberStr_iff_countStr_pos _ _).mp hm
    omega
  · have hm' : memberStr (get_passwords cfg) password = false :=
      (Bool.not_eq_true _).mp hm
    obtain ⟨d, heq, hget, _⟩ :=
      add_password_accepted cfg password confirmWeak active hv hne hweak hm'
    have hcached : (add_password cfg password confirmWeak active).cached = d := by rw [heq]
    have hsaved : (add_password cfg password confirmWeak active).saved = some d := by
      rw [heq]
    have hmem2 : memberStr (get_passwords d) password = true := by
      rw [hget]
      exact memberStr_append_self ..
    have h2 : add_password ((add_password cfg password confirmWeak active).cached)
        password confirmWeak active
        = ⟨.duplicateRejected, d, none, false, decide (password.length < 8)⟩ := by
      rw [hcached]
      exact add_password_duplicate d password confirmWeak active hne hweak hmem2
    refine ⟨?_, by rw [h2], by rw [h2], memberStr_iff_mem⟩
    rw [h2, hsaved]
    simp only [Option.getD_none, Option.getD_some]
    rw [hget, countStr_append, countStr_singleton_self]
    have h0 := (memberStr_eq_false_iff _ _).mp hm'
    omega

/-- Witness for the amended C4 on `docA` with candidate `"password1"`. -/
theorem c4_add_idempotent_witness :
    validDoc docA ∧ "password1" ≠ "" ∧ 8 ≤ "password1".length
    ∧ countStr (get_passwords docA) "password1" ≤ 1
    ∧ (countStr
        (get_passwords
          (((add_password ((add_password docA "password1" false true).cached)
              "password1" false true).saved).getD
            (((add_password docA "password1" false true).saved).getD docA)))
        "password1" = 1
      ∧ (add_password ((add_password docA "password1" false true).cached)
          "password1" false true).result = .duplicateRejected
      ∧ (add_password ((add_password docA "password1" false true).cached)
          "password1" false true).saved = none
      ∧ (∀ xs s, memberStr xs s = true ↔ JValue.str s ∈ xs)) :=
  ⟨⟨_, rfl, .inr ⟨_, rfl⟩⟩, by decide, by decide, by decide,
   c4_add_idempotent docA "password1" false true ⟨_, rfl, .inr ⟨_, rfl⟩⟩
     (by decide) (by decide) (by decide)⟩

/-- C6 (counterexample): the claim says a below-threshold candidate with
`allowWeak = false` is rejected without the core blocking on interactive
input.  The code has no `allowWeak` parameter: whenever the candidate is
shorter than 8 characters, `add_password` itself calls
`input("Continue anyway? (y/N)")` — the `prompted` flag is true for both
possible operator answers — and a declined prompt yields a cancellation,
not a non-interactive rejection. -/
theorem c6_counterexample :
    (add_password docEmpty "short" false true).prompted = true
    ∧ (add_password docEmpty "short" true true).prompted = true
    ∧ (add_password docEmpty "short" false true).result = .weakCancelled
    ∧ (add_password docEmpty "short" false true).saved = none :=
  ⟨rfl, rfl, rfl, rfl⟩

/-- C6 (amended): for a non-empty candidate shorter than 8 characters, the
operation interactively prompts for confirmation (the core itself blocks on
input): if the operator declines, the operation is cancelled without
modifying the file; if the operator confirms, the candidate is appended.
The interactive answer plays the role the claim assigns to `allowWeak`. -/
theorem c6_weak_requires_confirmation (cfg : JValue) (password : String) (active : Bool)
    (hv : validDoc cfg) (hne : password ≠ "") (hlen : password.length < 8)
    (hdup : memberStr (get_passwords cfg) password = false) :
    add_password cfg password false active = ⟨.weakCancelled, cfg, none, false, true⟩
    ∧ ∃ d, add_password cfg password true active = ⟨.added, d, some d, active, true⟩
      ∧ get_passwords d = get_passwords cfg ++ [.str password] := by
  refine ⟨add_password_weak_cancelled cfg password active hne hlen, ?_⟩
  obtain ⟨d, heq, hget, _⟩ :=
    add_password_accepted cfg password true active hv hne (by simp) hdup
  refine ⟨d, ?_, hget⟩
  rw [heq]
  simp [hlen]

/-- Witness for the amended C6 on `docEmpty` with candidate `"short"`
(length 5). -/
theorem c6_weak_requires_confirmation_witness :
    validDoc docEmpty ∧ "short" ≠ "" ∧ "short".length < 8
    ∧ memberStr (get_passwords docEmpty) "short" = false
    ∧ (add_password docEmpty "short" false true = ⟨.weakCancelled, docEmpty, none, false, true⟩
      ∧ ∃ d, add_password docEmpty "short" true true = ⟨.added, d, some d, true, true⟩
        ∧ get_passwords d = get_passwords docEmpty ++ [.str "short"]) :=
  ⟨⟨_, rfl, .inr ⟨_, rfl⟩⟩, by decide, by decide, rfl,
   c6_weak_requires_confirmation docEmpty "short" true ⟨_, rfl, .inr ⟨_, rfl⟩⟩
     (by decide) (by decide) rfl⟩

/-- C7: the load/save round trip returns the document unchanged, and the
credential-list mutation used by add and remove preserves every top-level
key other than `auth` and every `auth`-section key other than `config`
verbatim, while `config` becomes exactly the new list: the mutated document
is structurally equal to the original except for the owned credential
list. -/
theorem c7_roundtrip_preserves_keys (doc : JValue) (kvs akvs : List (String × JValue))
    (ps : List JValue) (hdoc : doc = .obj kvs)
    (hauth : lookupKey "auth" kvs = some (.obj akvs)) :
    load_config (save_config doc) = .ok doc
    ∧ ∃ kvs', setAuthConfig doc ps = some (.obj kvs')
      ∧ (∀ k, k ≠ "auth" → lookupKey k kvs' = lookupKey k kvs)
      ∧ ∃ akvs', lookupKey "auth" kvs' = some (.obj akvs')
        ∧ (∀ k, k ≠ "config" → lookupKey k akvs' = lookupKey k akvs)
        ∧ lookupKey "config" akvs' = some (.arr ps) := by
  subst hdoc
  refine ⟨rfl, setKey kvs "auth" (.obj (setKey akvs "config" (.arr ps))),
    by simp [setAuthConfig, hauth],
    fun k hk => lookupKey_setKey_ne kvs "auth" k _ hk,
    setKey akvs "config" (.arr ps),
    lookupKey_setKey_self kvs "auth" _,
    fun k hk => lookupKey_setKey_ne akvs "config" k _ hk,
    lookupKey_setKey_self akvs "config" _⟩

/-- Witness for C7 on `docRich` (which carries unrecognized top-level and
nested keys), replacing the credential list by `["b"]`. -/
theorem c7_roundtrip_preserves_keys_witness :
    docRich = JValue.obj docRichKvs
    ∧ lookupKey "auth" docRichKvs = some (.obj docRichAuthKvs)
    ∧ (load_config (save_config docRich) = .ok docRich
      ∧ ∃ kvs', setAuthConfig docRich [JValue.str "b"] = some (.obj kvs')
        ∧ (∀ k, k ≠ "auth" → lookupKey k kvs' = lookupKey k docRichKvs)
        ∧ ∃ akvs', lookupKey "auth" kvs' = some (.obj akvs')
          ∧ (∀ k, k ≠ "config" → lookupKey k akvs' = lookupKey k docRichAuthKvs)
          ∧ lookupKey "config" akvs' = some (.arr [JValue.str "b"])) :=
  ⟨rfl, rfl,
   c7_roundtrip_preserves_keys docRich docRichKvs docRichAuthKvs [JValue.str "b"] rfl rfl⟩

/-- C9 (counterexample): the claim says each failed sub-query — including
config metadata and credential count — is recorded as a per-field
unavailable marker and the snapshot never aborts as a whole.  But when the
config file is missing, the `load_config` inside the dashboard exits the
process: the whole snapshot aborts even though the service-status sub-query
succeeded. -/
theorem c9_counterexample :
    display_dashboard worldMissing = .error .notFound :=
  rfl

/-- C9 (amended): with a loadable config document, the dashboard snapshot
always succeeds and contains the service status and the credential count,
even when the network inspection fails (its field degrades to the explicit
`"Unable to determine"` marker) and even when the supervisor queries fail
(the status degrades to its inactive/disabled defaults); only a config-load
failure aborts the snapshot as a whole. -/
theorem c9_dashboard_degrades (w : World) (d : JValue) (h : w.file = .ok d) :
    display_dashboard w
      = .ok ⟨get_service_status w, (get_passwords d).length, topLevelKeys d,
             get_network_info w⟩
    ∧ (w.netOk = false → (get_network_info w).ip_address = "Unable to determine")
    ∧ (w.svcQueryOk = false → get_service_status w = ⟨false, false, none⟩) := by
  refine ⟨?_, fun hn => by simp [get_network_info, hn],
    fun hs => by simp [get_service_status, hs]⟩
  simp [display_dashboard, h, load_config]
  rfl

/-- Witness for the amended C9 on `worldNetDown` (loadable config, failing
network inspection). -/
theorem c9_dashboard_degrades_witness :
    worldNetDown.file = .ok docA
    ∧ (display_dashboard worldNetDown
        = .ok ⟨get_service_status worldNetDown, (get_passwords docA).length,
               topLevelKeys docA, get_network_info worldNetDown⟩
      ∧ (worldNetDown.netOk = false →
          (get_network_info worldNetDown).ip_address = "Unable to determine")
      ∧ (worldNetDown.svcQueryOk = false →
          get_service_status worldNetDown = ⟨false, false, none⟩)) :=
  ⟨rfl, c9_dashboard_degrades worldNetDown docA rfl⟩
